import Mathlib

/-!
Shallow embedding of the AlgoTradeHub core (strategy.py, utils/risk_manager.py,
utils/trade_tracker.py, utils/metrics_calculator.py) over exact rational
arithmetic, together with theorems settling the frozen claims about it.

Conventions of the embedding:
* Python floats are modelled as `ℚ`; a pandas `NaN` cell is `Option.none`.
* `np.sqrt` is transcendental, so functions that use it take an abstract
  model `rt : ℚ → ℚ` of the square root; likewise `pow(x, y)` for fractional
  exponents is taken as an abstract `pw : ℚ → ℚ → ℚ`.  Every theorem that
  touches such a function is proved for all models, so no property depends
  on the interpretation of the transcendental operations.
* Python comparisons against `NaN` are `False`; the generators below check
  `pd.isna` (or fall through every branch) exactly where the source does,
  so an `Option.none` indicator value yields `none` (no signal), matching
  the source's outcome on `NaN`.
* Division by zero is `0` in `ℚ`; the source sites where a denominator can
  be `0` are guarded in the source itself (noted per definition), and no
  theorem depends on an unguarded division.
-/

namespace AlgoTradeHub

/-- A dataframe row: raw OHLCV columns plus the indicator columns that
`calculate_indicators` adds (`NaN` modelled as `none`). -/
structure Row where
  close : ℚ
  high : ℚ
  low : ℚ
  volume : ℚ
  rsi : Option ℚ := none
  macd : Option ℚ := none
  macdSignal : Option ℚ := none
  bbUpper : Option ℚ := none
  bbLower : Option ℚ := none
  bbMiddle : Option ℚ := none
  deriving DecidableEq, Repr

/-- A trading signal's action. -/
inductive Action where
  | BUY
  | SELL
  deriving DecidableEq, Repr

/-- The fields of an emitted signal dict that the claims are about
(`action`, `price`, `signal_strength`); the remaining dict entries
(timestamp, per-indicator diagnostics) carry no semantics for the claims. -/
structure Signal where
  action : Action
  price : ℚ
  strength : ℚ
  deriving DecidableEq, Repr

/-- Strategy parameters with the defaults from `TradingStrategy.__init__`. -/
structure StrategyParams where
  rsiPeriod : ℕ := 14
  rsiOverbought : ℚ := 70
  rsiOversold : ℚ := 30
  volumeThreshold : ℚ := 1000000
  deriving Repr

/-- The default parameter set (empty config). -/
def defaultParams : StrategyParams := {}

/-- `df.iloc[-2]` and `df.iloc[-1]` as a pair `(previous, latest)`. -/
def lastTwo : List Row → Option (Row × Row)
  | [] => none
  | [_] => none
  | [previous, latest] => some (previous, latest)
  | _ :: rest => lastTwo rest

/-- `TradingStrategy.rsi_strategy` (strategy.py:108-158). -/
def rsiStrategy (p : StrategyParams) (rows : List Row) : Option Signal :=
  if rows.length < p.rsiPeriod then none
  else
    match lastTwo rows with
    | none => none
    | some (previous, latest) =>
      match latest.rsi, previous.rsi with
      | some currentRsi, some previousRsi =>
        if previousRsi ≤ p.rsiOversold ∧ currentRsi > p.rsiOversold ∧
            latest.volume > p.volumeThreshold then
          some { action := .BUY, price := latest.close,
                 strength := min 100 ((p.rsiOversold - previousRsi) * 2) }
        else if previousRsi ≥ p.rsiOverbought ∧ currentRsi < p.rsiOverbought then
          some { action := .SELL, price := latest.close,
                 strength := min 100 ((previousRsi - p.rsiOverbought) * 2) }
        else none
      | _, _ => none

/-- `TradingStrategy.macd_strategy` (strategy.py:160-215).  The source only
`isna`-checks the latest MACD/signal values; a `NaN` previous value makes
both crossing conditions `False`, i.e. no signal, which the inner match
reproduces. -/
def macdStrategy (p : StrategyParams) (rows : List Row) : Option Signal :=
  if rows.length < 26 then none
  else
    match lastTwo rows with
    | none => none
    | some (previous, latest) =>
      match latest.macd, latest.macdSignal with
      | some currentMacd, some currentSignal =>
        match previous.macd, previous.macdSignal with
        | some previousMacd, some previousSignal =>
          if previousMacd ≤ previousSignal ∧ currentMacd > currentSignal ∧
              latest.volume > p.volumeThreshold then
            some { action := .BUY, price := latest.close,
                   strength := min 100 (|currentMacd - currentSignal| * 100) }
          else if previousMacd ≥ previousSignal ∧ currentMacd < currentSignal then
            some { action := .SELL, price := latest.close,
                   strength := min 100 (|currentMacd - currentSignal| * 100) }
          else none
        | _, _ => none
      | _, _ => none

/-- `TradingStrategy.bollinger_strategy` (strategy.py:217-270). -/
def bollingerStrategy (p : StrategyParams) (rows : List Row) : Option Signal :=
  if rows.length < 20 then none
  else
    match lastTwo rows with
    | none => none
    | some (previous, latest) =>
      match latest.bbUpper, latest.bbLower, latest.bbMiddle with
      | some bbUpper, some bbLower, some bbMiddle =>
        if previous.close ≤ bbLower ∧ latest.close > bbLower ∧
            latest.volume > p.volumeThreshold then
          some { action := .BUY, price := latest.close,
                 strength := min 100 ((bbMiddle - latest.close) / (bbMiddle - bbLower) * 100) }
        else if previous.close ≥ bbUpper ∧ latest.close < bbUpper then
          some { action := .SELL, price := latest.close,
                 strength := min 100 ((latest.close - bbMiddle) / (bbUpper - bbMiddle) * 100) }
        else none
      | _, _, _ => none

/-- `np.mean` over a list of rationals. -/
def mean (l : List ℚ) : ℚ := l.sum / l.length

/-- The three sub-strategy results the multi-indicator strategy combines. -/
def subSignals (p : StrategyParams) (rows : List Row) : List (Option Signal) :=
  [rsiStrategy p rows, macdStrategy p rows, bollingerStrategy p rows]

/-- Number of sub-strategies whose signal has the given action
(strategy.py:284-287). -/
def countAction (p : StrategyParams) (rows : List Row) (a : Action) : ℕ :=
  ((subSignals p rows).filterMap id).countP (fun s => s.action = a)

/-- The strengths of the agreeing sub-signals (strategy.py:296-298, 314-316). -/
def agreeingStrengths (p : StrategyParams) (rows : List Row) (a : Action) : List ℚ :=
  (((subSignals p rows).filterMap id).filter (fun s => s.action = a)).map (·.strength)

/-- `TradingStrategy.multi_indicator_strategy` (strategy.py:272-334). -/
def multiIndicatorStrategy (p : StrategyParams) (rows : List Row) : Option Signal :=
  if rows.length < 26 then none
  else
    match rows.getLast? with
    | none => none
    | some latest =>
      if countAction p rows .BUY ≥ 2 then
        let strengths := agreeingStrengths p rows .BUY
        some { action := .BUY, price := latest.close,
               strength := if strengths = [] then 50 else mean strengths }
      else if countAction p rows .SELL ≥ 2 then
        let strengths := agreeingStrengths p rows .SELL
        some { action := .SELL, price := latest.close,
               strength := if strengths = [] then 50 else mean strengths }
      else none

/-- `ta.trend.sma_indicator(close, window=w)` at row index `i` (pandas
rolling mean, `NaN` until `w` values are available). -/
def rollingMeanAt (xs : List ℚ) (w i : ℕ) : Option ℚ :=
  if i + 1 < w then none
  else some (((xs.drop (i + 1 - w)).take w).sum / w)

/-- `TradingStrategy.sma_crossover_strategy` (strategy.py:336-382).  The
source performs no `isna` check, but with ≥ 50 rows all four SMA values
exist; `NaN` comparisons would be `False` (no signal), as the wildcard
branch reproduces. -/
def smaCrossoverStrategy (rows : List Row) : Option Signal :=
  if rows.length < 50 then none
  else
    let closes := rows.map (·.close)
    let n := rows.length
    match rows.getLast?, rollingMeanAt closes 10 (n - 1), rollingMeanAt closes 30 (n - 1),
        rollingMeanAt closes 10 (n - 2), rollingMeanAt closes 30 (n - 2) with
    | some latest, some currentShort, some currentLong, some prevShort, some prevLong =>
      if prevShort ≤ prevLong ∧ currentShort > currentLong then
        some { action := .BUY, price := latest.close,
               strength := min 100 ((currentShort - currentLong) / currentLong * 100) }
      else if prevShort ≥ prevLong ∧ currentShort < currentLong then
        some { action := .SELL, price := latest.close,
               strength := min 100 ((currentLong - currentShort) / currentShort * 100) }
      else none
    | _, _, _, _, _ => none

/-- The `adjust=False` exponentially weighted mean with smoothing `α`:
`y₀ = x₀`, `yₖ = α·xₖ + (1-α)·yₖ₋₁`; returns the final `y`. -/
def ewmLast (α : ℚ) : List ℚ → Option ℚ
  | [] => none
  | x :: xs => some (xs.foldl (fun y x' => α * x' + (1 - α) * y) x)

/-- `ta.trend.ema_indicator(close, window=w)` at index `i`:
`close.ewm(span=w, min_periods=w, adjust=False).mean()`, so `α = 2/(w+1)`
and the first `w-1` outputs are `NaN`. -/
def emaAt (xs : List ℚ) (w i : ℕ) : Option ℚ :=
  if i + 1 < w then none else ewmLast (2 / ((w : ℚ) + 1)) (xs.take (i + 1))

/-- `TradingStrategy.ema_strategy` (strategy.py:384-426). -/
def emaStrategy (rows : List Row) : Option Signal :=
  if rows.length < 26 then none
  else
    let closes := rows.map (·.close)
    match rows.getLast?, emaAt closes 12 (rows.length - 1), emaAt closes 26 (rows.length - 1) with
    | some latest, some emaFast, some emaSlow =>
      if latest.close > emaFast ∧ emaFast > emaSlow then
        some { action := .BUY, price := latest.close,
               strength := min 100 ((latest.close - emaFast) / emaFast * 100) }
      else if latest.close < emaFast ∧ emaFast < emaSlow then
        some { action := .SELL, price := latest.close,
               strength := min 100 ((emaFast - latest.close) / latest.close * 100) }
      else none
    | _, _, _ => none

/-- Rolling minimum over the window of length `w` ending at index `i`. -/
def rollingMinAt (xs : List ℚ) (w i : ℕ) : Option ℚ :=
  if i + 1 < w then none else ((xs.drop (i + 1 - w)).take w).min?

/-- Rolling maximum over the window of length `w` ending at index `i`. -/
def rollingMaxAt (xs : List ℚ) (w i : ℕ) : Option ℚ :=
  if i + 1 < w then none else ((xs.drop (i + 1 - w)).take w).max?

/-- `ta.momentum.stoch` %K at index `i`:
`100·(close − min low)/(max high − min low)` over a window of 14.  A zero
denominator (numpy `NaN` on well-formed bars, where it forces a flat
window and a zero numerator) is modelled as `none`. -/
def stochKAt (rows : List Row) (i : ℕ) : Option ℚ :=
  match rollingMinAt (rows.map (·.low)) 14 i, rollingMaxAt (rows.map (·.high)) 14 i, rows[i]? with
  | some smin, some smax, some row =>
    if smax - smin = 0 then none
    else some (100 * (row.close - smin) / (smax - smin))
  | _, _, _ => none

/-- `ta.momentum.stoch_signal` %D at index `i`: the 3-period rolling mean
of %K with `min_periods = 3`. -/
def stochDAt (rows : List Row) (i : ℕ) : Option ℚ :=
  if i + 1 < 3 then none
  else
    match stochKAt rows (i - 2), stochKAt rows (i - 1), stochKAt rows i with
    | some k0, some k1, some k2 => some ((k0 + k1 + k2) / 3)
    | _, _, _ => none

/-- `TradingStrategy.stochastic_strategy` (strategy.py:518-564).  The
source performs no `isna` check; a `NaN` among the four oscillator values
makes every crossing comparison `False` (no signal), as the wildcard
branch reproduces. -/
def stochasticStrategy (rows : List Row) : Option Signal :=
  if rows.length < 14 then none
  else
    let n := rows.length
    match lastTwo rows, stochKAt rows (n - 1), stochDAt rows (n - 1),
        stochKAt rows (n - 2), stochDAt rows (n - 2) with
    | some (_, latest), some currentK, some currentD, some prevK, some prevD =>
      if currentK > currentD ∧ prevK ≤ prevD ∧ currentK < 20 then
        some { action := .BUY, price := latest.close,
               strength := min 100 ((20 - currentK) * 5) }
      else if currentK < currentD ∧ prevK ≥ prevD ∧ currentK > 80 then
        some { action := .SELL, price := latest.close,
               strength := min 100 ((currentK - 80) * 5) }
      else none
    | _, _, _, _, _ => none

/-- One entry of `recent_trades`: the `pnl` and `pnl_pct` keys the sizing
helpers read (`t.get(..., 0)` makes both total). -/
structure TradeOutcome where
  pnl : ℚ := 0
  pnlPct : ℚ := 0
  deriving DecidableEq, Repr

/-- The configuration keys `calculate_position_size` reads, with their
source defaults. -/
structure SizingConfig where
  initialCapital : ℚ := 10000
  riskPerTrade : ℚ := 0.01
  deriving Repr

/-- The default sizing configuration (empty config dict). -/
def defaultSizingConfig : SizingConfig := {}

/-- `np.mean`-style population variance (`np.std` with `ddof = 0` is its
square root). -/
def popVar (l : List ℚ) : ℚ :=
  (l.map (fun x => (x - mean l) ^ 2)).sum / l.length

/-- Python `lst[-n:]`. -/
def lastN {α : Type} (n : ℕ) (l : List α) : List α := l.drop (l.length - n)

/-- `TradingStrategy.adjust_risk_based_on_performance` (strategy.py:659-688).
`rt` models `np.sqrt`, so `np.std(returns) = rt (popVar returns)`. -/
def adjustRiskBasedOnPerformance (rt : ℚ → ℚ) (recentTrades : List TradeOutcome)
    (baseRisk : ℚ) : ℚ :=
  if recentTrades.length < 5 then baseRisk
  else
    let recentReturns := (lastN 10 recentTrades).map (·.pnlPct)
    if recentReturns = [] then baseRisk
    else
      let avgReturn := mean recentReturns
      let stdReturn := rt (popVar recentReturns)
      if stdReturn > 0 then
        let sharpeRatio := avgReturn / stdReturn
        if sharpeRatio > 1 then min (baseRisk * 1.5) 0.03
        else if sharpeRatio < -0.5 then max (baseRisk * 0.5) 0.005
        else baseRisk
      else baseRisk

/-- `TradingStrategy.get_recent_win_rate` (strategy.py:719-731). -/
def getRecentWinRate (recentTrades : List TradeOutcome) : ℚ :=
  if recentTrades.length < 5 then 0.5
  else
    let winningTrades := (lastN 20 recentTrades).filter (fun t => t.pnl > 0)
    (winningTrades.length : ℚ) / (min recentTrades.length 20 : ℕ)

/-- `TradingStrategy.get_average_win` (strategy.py:733-743). -/
def getAverageWin (recentTrades : List TradeOutcome) : ℚ :=
  let winningTrades := ((lastN 20 recentTrades).filter (fun t => t.pnlPct > 0)).map (·.pnlPct)
  if winningTrades = [] then 0.02 else mean winningTrades

/-- `TradingStrategy.get_average_loss` (strategy.py:745-755). -/
def getAverageLoss (recentTrades : List TradeOutcome) : ℚ :=
  let losingTrades := ((lastN 20 recentTrades).filter (fun t => t.pnlPct < 0)).map (|·.pnlPct|)
  if losingTrades = [] then 0.015 else mean losingTrades

/-- `TradingStrategy.calculate_dynamic_stop_distance` (strategy.py:690-717). -/
def calculateDynamicStopDistance (price atr : ℚ) : ℚ :=
  if atr ≤ 0 then price * 0.02
  else
    let volatilityRatio := atr / price
    let atrMultiplier : ℚ :=
      if volatilityRatio > 0.05 then 3.0
      else if volatilityRatio < 0.01 then 1.5
      else 2.0
    let stopDistance := atrMultiplier * atr
    let minStop := price * 0.005
    let maxStop := price * 0.05
    max minStop (min stopDistance maxStop)

/-- `TradingStrategy.calculate_position_size` (strategy.py:615-657).  A
`none` balance models the Python `account_balance = None` default, filled
from `config['backtest']['initial_capital']`. -/
def calculatePositionSize (rt : ℚ → ℚ) (cfg : SizingConfig)
    (recentTrades : List TradeOutcome) (price atr : ℚ)
    (accountBalance : Option ℚ := none) : ℚ :=
  let balance := accountBalance.getD cfg.initialCapital
  let baseRisk := cfg.riskPerTrade
  let riskAdjusted := adjustRiskBasedOnPerformance rt recentTrades baseRisk
  let stopLossDistance := calculateDynamicStopDistance price atr
  let winRate := getRecentWinRate recentTrades
  let avgWin := getAverageWin recentTrades
  let avgLoss := getAverageLoss recentTrades
  let riskPerTrade :=
    if avgLoss > 0 ∧ winRate > 0 then
      let kellyFraction := (winRate * avgWin - (1 - winRate) * avgLoss) / avgWin
      min riskAdjusted (max 0 (min kellyFraction 0.25))
    else riskAdjusted
  let positionSize := balance * riskPerTrade / stopLossDistance
  let maxPositionValue := balance * 0.1
  let maxQuantity := maxPositionValue / price
  let quantity := min (positionSize / price) maxQuantity
  max 0.001 quantity

/-- A trade/position side.  The tracker stores it as `'buy'`/`'sell'`, the
risk manager compares `side.upper() == 'BUY'`; both reduce to this binary
choice. -/
inductive Side where
  | BUY
  | SELL
  deriving DecidableEq, Repr

/-- The configuration keys `RiskManager.__init__` reads, with their source
defaults. -/
structure RiskConfig where
  maxPortfolioRisk : ℚ := 0.06
  maxPositionSize : ℚ := 0.1
  maxCorrelation : ℚ := 0.7
  maxDrawdownLimit : ℚ := 0.15
  initialCapital : ℚ := 10000
  deriving Repr

/-- The default risk configuration (empty config dict). -/
def defaultRiskConfig : RiskConfig := {}

/-- The `(stop_multiplier, profit_multiplier)` pair after the
trend-strength adjustment (risk_manager.py:40-50). -/
def trendMultipliers (trendStrength : ℚ) : ℚ × ℚ :=
  if trendStrength > 0.7 then (3.0, 6.0)
  else if trendStrength < 0.3 then (1.5, 3.0)
  else (2.0, 4.0)

/-- The volatility-regime adjustment of the multiplier pair
(risk_manager.py:52-60). -/
def volatilityAdjusted (volatilityRatio : ℚ) (m : ℚ × ℚ) : ℚ × ℚ :=
  if volatilityRatio > 0.05 then (m.1 * 1.5, m.2 * 1.2)
  else if volatilityRatio < 0.01 then (m.1 * 0.8, m.2 * 0.9)
  else m

/-- `RiskManager.set_adaptive_stops` (risk_manager.py:33-98): returns
`(stop_loss, take_profit)`. -/
def setAdaptiveStops (entryPrice atr trendStrength : ℚ) (side : Side) : ℚ × ℚ :=
  let atr := if atr ≤ 0 then entryPrice * 0.02 else atr
  let m := volatilityAdjusted (atr / entryPrice) (trendMultipliers trendStrength)
  let stopMultiplier := m.1
  let profitMultiplier := m.2
  let maxStopDistance := entryPrice * 0.05
  let minStopDistance := entryPrice * 0.005
  match side with
  | .BUY =>
    let stopLoss := entryPrice - stopMultiplier * atr
    let stopDistance := entryPrice - stopLoss
    let stopDistance := max minStopDistance (min stopDistance maxStopDistance)
    let stopLoss := entryPrice - stopDistance
    let profitDistance := stopDistance * (profitMultiplier / stopMultiplier)
    (stopLoss, entryPrice + profitDistance)
  | .SELL =>
    let stopLoss := entryPrice + stopMultiplier * atr
    let stopDistance := stopLoss - entryPrice
    let stopDistance := max minStopDistance (min stopDistance maxStopDistance)
    let stopLoss := entryPrice + stopDistance
    let profitDistance := stopDistance * (profitMultiplier / stopMultiplier)
    (stopLoss, entryPrice - profitDistance)

/-- An open position as the risk manager reads it (`symbol`, `side`,
`entry_price`, `stop_loss`, `quantity` attributes are all present, so the
`hasattr` branches of the source are taken). -/
structure Position where
  symbol : String
  side : Side
  entryPrice : ℚ
  stopLoss : ℚ
  quantity : ℚ
  deriving DecidableEq, Repr

/-- Per-position risk to stop (risk_manager.py:171-177). -/
def positionRisk (p : Position) : ℚ :=
  (if p.side = .BUY then p.entryPrice - p.stopLoss else p.stopLoss - p.entryPrice) * p.quantity

/-- `RiskManager.check_portfolio_heat` (risk_manager.py:163-190). -/
def checkPortfolioHeat (cfg : RiskConfig) (openPositions : List Position)
    (newTradeRisk : ℚ) : Bool :=
  let totalRisk := newTradeRisk + (openPositions.map positionRisk).sum
  totalRisk ≤ cfg.initialCapital * cfg.maxPortfolioRisk

/-- `RiskManager.calculate_position_correlation` (risk_manager.py:192-228).
(The `lookback_days` parameter is unused by the source body.) -/
def calculatePositionCorrelation (symbol1 symbol2 : String) : ℚ :=
  if symbol1 = symbol2 then 1.0
  else
    let base1 := if symbol1.contains '/' then (symbol1.splitOn "/").headD "" else symbol1.take 3
    let base2 := if symbol2.contains '/' then (symbol2.splitOn "/").headD "" else symbol2.take 3
    let highCorrPairs : List (String × String) :=
      [("BTC", "ETH"), ("ETH", "BTC"), ("BTC", "LTC"), ("LTC", "BTC"),
       ("ETH", "ETC"), ("ETC", "ETH")]
    if highCorrPairs.contains (base1, base2) then 0.8
    else
      let quote1 := if symbol1.contains '/' then (symbol1.splitOn "/").getD 1 "" else "USD"
      let quote2 := if symbol2.contains '/' then (symbol2.splitOn "/").getD 1 "" else "USD"
      if quote1 = quote2 then 0.4 else 0.1

/-- `RiskManager.check_position_correlation` (risk_manager.py:230-246): the
source loop returns `False` at the first position whose correlation
exceeds the threshold, i.e. succeeds iff no position exceeds it. -/
def checkPositionCorrelation (cfg : RiskConfig) (newSymbol : String)
    (existingPositions : List Position) : Bool :=
  existingPositions.all
    (fun p => calculatePositionCorrelation newSymbol p.symbol ≤ cfg.maxCorrelation)

/-- `RiskManager.validate_trade` (risk_manager.py:366-408): returns the
`(accepted, reason)` pair. -/
def validateTrade (cfg : RiskConfig) (openPositions : List Position) (symbol : String)
    (side : Side) (quantity price stopLoss takeProfit : ℚ) : Bool × String :=
  let riskPerShare := if side = .BUY then price - stopLoss else stopLoss - price
  let tradeRisk := riskPerShare * quantity
  if ¬ checkPortfolioHeat cfg openPositions tradeRisk then
    (false, "Portfolio risk limit exceeded")
  else if ¬ checkPositionCorrelation cfg symbol openPositions then
    (false, "High correlation with existing positions")
  else
    let positionValue := quantity * price
    if positionValue > cfg.initialCapital * cfg.maxPositionSize then
      (false, "Position size exceeds maximum limit")
    else
      let rewardPerShare := if side = .BUY then takeProfit - price else price - takeProfit
      if riskPerShare > 0 ∧ rewardPerShare / riskPerShare < 1.5 then
        (false, "Risk/reward ratio too low")
      else (true, "Trade validated")

/-- The realized-PnL computation of `TradeTracker.close_position`
(trade_tracker.py:181-197): directional PnL, minus commission charged on
both the entry and the exit notional. -/
def closePositionPnl (side : Side) (entryPrice exitPrice quantity commissionRate : ℚ) : ℚ :=
  let pnl := if side = .BUY then (exitPrice - entryPrice) * quantity
             else (entryPrice - exitPrice) * quantity
  let commission := entryPrice * quantity * commissionRate +
                    exitPrice * quantity * commissionRate
  pnl - commission

/-- `MetricsCalculator.risk_free_rate` (metrics_calculator.py:21). -/
def riskFreeRate : ℚ := 0.02

/-- `Series.pct_change().dropna()`: consecutive-ratio returns.  (pandas
yields `inf` on a zero previous value; no theorem below evaluates such a
curve.) -/
def pctChange : List ℚ → List ℚ
  | a :: b :: rest => (b / a - 1) :: pctChange (b :: rest)
  | _ => []

/-- pandas `Series.std()` squared: sample variance with `ddof = 1` (`0/0`
for a singleton, where pandas gives `NaN`; no theorem evaluates that case). -/
def sampleVar (l : List ℚ) : ℚ :=
  (l.map (fun x => (x - mean l) ^ 2)).sum / ((l.length - 1 : ℕ) : ℚ)

/-- `returns.std() * np.sqrt(252) * 100` (metrics_calculator.py:151), with
`rt` the abstract square-root model. -/
def volatilityAnn (rt : ℚ → ℚ) (portfolioValues : List ℚ) : ℚ :=
  rt (sampleVar (pctChange portfolioValues)) * rt 252 * 100

/-- The annualized return of metrics_calculator.py:148-150, with `pw` the
abstract model of `pow`. -/
def annualizedReturn (pw : ℚ → ℚ → ℚ) (portfolioValues : List ℚ) : ℚ :=
  let returns := pctChange portfolioValues
  let years := (returns.length : ℚ) / 252
  if years > 0 then
    (pw (portfolioValues.getLast?.getD 0 / portfolioValues.headD 0) (1 / years) - 1) * 100
  else 0

/-- The annualized downside deviation of metrics_calculator.py:158-160. -/
def downsideDeviation (rt : ℚ → ℚ) (portfolioValues : List ℚ) : ℚ :=
  rt (sampleVar ((pctChange portfolioValues).filter (· < 0))) * rt 252 * 100

/-- `Series.expanding().max()`: the running maximum. -/
def runningMax : List ℚ → List ℚ
  | [] => []
  | x :: xs => go x xs
where
  go (m : ℚ) : List ℚ → List ℚ
    | [] => [m]
    | x :: xs => m :: go (max m x) xs

/-- `MetricsCalculator.calculate_max_drawdown` (metrics_calculator.py:218-227):
the minimum of `(values - running_max) / running_max * 100`. -/
def maxDrawdown (portfolioValues : List ℚ) : ℚ :=
  (((portfolioValues.zip (runningMax portfolioValues)).map
    (fun vm => (vm.1 - vm.2) / vm.2 * 100)).min?).getD 0

/-- The ratio entries of the dict built by
`MetricsCalculator.calculate_risk_metrics`. -/
structure RiskMetrics where
  sharpeRatio : ℚ
  sortinoRatio : ℚ
  calmarRatio : ℚ
  deriving DecidableEq, Repr

/-- `MetricsCalculator.calculate_risk_metrics` (metrics_calculator.py:135-179);
`none` is the `{}` early return for fewer than two values or no returns. -/
def calculateRiskMetrics (rt : ℚ → ℚ) (pw : ℚ → ℚ → ℚ)
    (portfolioValues : List ℚ) : Option RiskMetrics :=
  if portfolioValues.length < 2 then none
  else
    let returns := pctChange portfolioValues
    if returns.length = 0 then none
    else
      let annReturn := annualizedReturn pw portfolioValues
      let volatility := volatilityAnn rt portfolioValues
      let excessReturn := annReturn - riskFreeRate * 100
      let sharpeRatio := if volatility > 0 then excessReturn / volatility else 0
      let downsideReturns := returns.filter (· < 0)
      let sortinoRatio :=
        if downsideReturns.length > 0 then
          let dd := downsideDeviation rt portfolioValues
          if dd > 0 then excessReturn / dd else 0
        else 0
      let maxDd := maxDrawdown portfolioValues
      let calmarRatio := if maxDd ≠ 0 then annReturn / |maxDd| else 0
      some { sharpeRatio := sharpeRatio, sortinoRatio := sortinoRatio,
             calmarRatio := calmarRatio }

/-- `np.cov(x, y)[0, 1]`: sample covariance (`ddof = 1`). -/
def sampleCov (xs ys : List ℚ) : ℚ :=
  ((xs.zip ys).map (fun p => (p.1 - mean xs) * (p.2 - mean ys))).sum /
    ((xs.length - 1 : ℕ) : ℚ)

/-- `np.var(benchmark_returns)`: population variance (`ddof = 0`) of the
benchmark's returns (metrics_calculator.py:278). -/
def benchmarkVariance (benchmarkValues : List ℚ) : ℚ :=
  popVar (pctChange benchmarkValues)

/-- The entries of the dict built by
`MetricsCalculator.calculate_benchmark_metrics`. -/
structure BenchmarkMetrics where
  buyHoldReturn : ℚ
  alpha : ℚ
  beta : ℚ
  deriving DecidableEq, Repr

/-- `MetricsCalculator.calculate_benchmark_metrics`
(metrics_calculator.py:259-299); `none` is the `{}` return on length
mismatch. -/
def calculateBenchmarkMetrics (pw : ℚ → ℚ → ℚ)
    (portfolioValues benchmarkValues : List ℚ) : Option BenchmarkMetrics :=
  if portfolioValues.length ≠ benchmarkValues.length then none
  else
    let benchmarkReturn :=
      (benchmarkValues.getLast?.getD 0 / benchmarkValues.headD 0 - 1) * 100
    let portfolioReturns := pctChange portfolioValues
    let benchmarkReturns := pctChange benchmarkValues
    if portfolioReturns.length ≠ benchmarkReturns.length then none
    else
      let covariance := sampleCov portfolioReturns benchmarkReturns
      let benchVar := benchmarkVariance benchmarkValues
      let beta := if benchVar ≠ 0 then covariance / benchVar else 0
      let portfolioAnn := annualizedReturn pw portfolioValues
      let benchmarkAnn := annualizedReturn pw benchmarkValues
      let alpha := portfolioAnn -
        (riskFreeRate * 100 + beta * (benchmarkAnn - riskFreeRate * 100))
      some { buyHoldReturn := benchmarkReturn, alpha := alpha, beta := beta }

/-- A trade dict as `calculate_trade_metrics` reads it (`.get` defaults:
`entry_price` 0, `quantity` 0, `side` `'buy'`); times are in seconds. -/
structure TradeRecord where
  entryPrice : ℚ := 0
  exitPrice : Option ℚ := none
  quantity : ℚ := 0
  side : Side := .BUY
  entryTime : Option ℚ := none
  exitTime : Option ℚ := none
  deriving DecidableEq, Repr

/-- Directional PnL of one completed trade (metrics_calculator.py:347-350). -/
def tradePnl (t : TradeRecord) : ℚ :=
  let exitPrice := t.exitPrice.getD 0
  if t.side = .BUY then (exitPrice - t.entryPrice) * t.quantity
  else (t.entryPrice - exitPrice) * t.quantity

/-- Gross profit over the completed trades (metrics_calculator.py:387). -/
def grossProfit (trades : List TradeRecord) : ℚ :=
  ((((trades.filter (fun t => t.exitPrice ≠ none)).map tradePnl).filter (· > 0))).sum

/-- Gross loss over the completed trades (metrics_calculator.py:388). -/
def grossLoss (trades : List TradeRecord) : ℚ :=
  |((((trades.filter (fun t => t.exitPrice ≠ none)).map tradePnl).filter (· < 0))).sum|

/-- The entries of the dict built by
`MetricsCalculator.calculate_trade_metrics`. -/
structure TradeMetrics where
  numTrades : ℕ
  winRate : ℚ
  bestTrade : ℚ
  worstTrade : ℚ
  avgTrade : ℚ
  maxDuration : ℚ
  avgDuration : ℚ
  profitFactor : ℚ
  expectancy : ℚ
  netProfit : ℚ
  deriving DecidableEq, Repr

/-- The all-zero metrics dict returned for an empty / all-open trade list
(metrics_calculator.py:304-333). -/
def zeroTradeMetrics : TradeMetrics :=
  { numTrades := 0, winRate := 0, bestTrade := 0, worstTrade := 0, avgTrade := 0,
    maxDuration := 0, avgDuration := 0, profitFactor := 0, expectancy := 0,
    netProfit := 0 }

/-- `MetricsCalculator.calculate_trade_metrics` (metrics_calculator.py:301-414).
The `float('inf')` profit factor is replaced by the `999.99` sentinel when
the dict is built (line 405), so the two branches are fused here. -/
def calculateTradeMetrics (trades : List TradeRecord) : TradeMetrics :=
  if trades = [] then zeroTradeMetrics
  else
    let completedTrades := trades.filter (fun t => t.exitPrice ≠ none)
    if completedTrades = [] then zeroTradeMetrics
    else
      let pnlValues := completedTrades.map tradePnl
      let pnlPercentages :=
        (completedTrades.filter (fun t => t.entryPrice > 0 ∧ t.quantity > 0)).map
          (fun t => tradePnl t / (t.entryPrice * t.quantity) * 100)
      let durations :=
        (completedTrades.filterMap
          (fun t => t.entryTime.bind (fun a => t.exitTime.map (fun b => (b - a) / 3600))))
      let totalTrades := completedTrades.length
      let winningTrades := pnlValues.filter (· > 0)
      let losingTrades := pnlValues.filter (· < 0)
      let winRate := if totalTrades > 0 then
          (winningTrades.length : ℚ) / totalTrades * 100 else 0
      let bestTrade := (pnlPercentages.max?).getD 0
      let worstTrade := (pnlPercentages.min?).getD 0
      let avgTrade := if pnlPercentages = [] then 0 else mean pnlPercentages
      let maxDuration := (durations.max?).getD 0
      let avgDuration := if durations = [] then 0 else mean durations
      let gp := winningTrades.sum
      let gl := |losingTrades.sum|
      let profitFactor := if gl > 0 then gp / gl else if gp > 0 then 999.99 else 0
      let netProfit := pnlValues.sum
      { numTrades := totalTrades, winRate := winRate, bestTrade := bestTrade,
        worstTrade := worstTrade, avgTrade := avgTrade, maxDuration := maxDuration,
        avgDuration := avgDuration, profitFactor := profitFactor,
        expectancy := avgTrade, netProfit := netProfit }

/-! ### Concrete inputs used by witnesses and counterexamples -/

/-- A filler bar for warm-up prefixes (indicator columns still `NaN`). -/
def dummyRow : Row := { close := 100, high := 101, low := 99, volume := 2000000 }

/-- Second-to-last bar of the RSI scenarios: RSI 28 (≤ oversold 30). -/
def rsiPrevRow : Row :=
  { close := 100, high := 101, low := 99, volume := 2000000, rsi := some 28 }

/-- Last bar of the RSI scenario: RSI 32 (> oversold 30), ample volume. -/
def rsiCurRow : Row :=
  { close := 100, high := 101, low := 99, volume := 2000000, rsi := some 32 }

/-- Same RSI values as `rsiCurRow` but with zero volume, below the
1,000,000 volume threshold. -/
def rsiLowVolRow : Row :=
  { close := 100, high := 101, low := 99, volume := 0, rsi := some 32 }

/-- A 14-bar series whose last two RSI values cross 28 → 32 with high
volume. -/
def rsiRows14 : List Row :=
  [dummyRow, dummyRow, dummyRow, dummyRow, dummyRow, dummyRow, dummyRow, dummyRow,
   dummyRow, dummyRow, dummyRow, dummyRow, rsiPrevRow, rsiCurRow]

/-- A 14-bar series whose last two RSI values cross 28 → 32 but whose last
bar has volume below the threshold. -/
def rsiLowVolRows : List Row :=
  [dummyRow, dummyRow, dummyRow, dummyRow, dummyRow, dummyRow, dummyRow, dummyRow,
   dummyRow, dummyRow, dummyRow, dummyRow, rsiPrevRow, rsiLowVolRow]

/-- Second-to-last bar of the Bollinger scenario: close 89 at or below the
lower band 90 of the next bar. -/
def bbPrevRow : Row := { close := 89, high := 101, low := 88, volume := 2000000 }

/-- Last bar of the Bollinger scenario: the close rebounds from below the
lower band (90) to 105, above the middle band (100). -/
def bbCurRow : Row :=
  { close := 105, high := 106, low := 99, volume := 2000000, bbUpper := some 110,
    bbLower := some 90, bbMiddle := some 100 }

/-- A 20-bar series on which the Bollinger strategy fires a BUY whose
strength `(100 - 105)/(100 - 90)·100 = -50` is negative. -/
def bbRows : List Row :=
  [dummyRow, dummyRow, dummyRow, dummyRow, dummyRow, dummyRow, dummyRow, dummyRow,
   dummyRow, dummyRow, dummyRow, dummyRow, dummyRow, dummyRow, dummyRow, dummyRow,
   dummyRow, dummyRow, bbPrevRow, bbCurRow]

/-- Second-to-last bar of the multi-indicator scenario: RSI 28, MACD below
its signal line, close inside the Bollinger bands. -/
def multiPrevRow : Row :=
  { close := 100, high := 101, low := 99, volume := 2000000, rsi := some 28,
    macd := some (-1), macdSignal := some 0, bbUpper := some 110, bbLower := some 95,
    bbMiddle := some 100 }

/-- Last bar of the multi-indicator scenario: RSI 32 and MACD above its
signal line (two agreeing BUY sub-signals), Bollinger silent. -/
def multiCurRow : Row :=
  { close := 100, high := 101, low := 99, volume := 2000000, rsi := some 32,
    macd := some 1, macdSignal := some 0, bbUpper := some 110, bbLower := some 95,
    bbMiddle := some 100 }

/-- A 26-bar series on which RSI and MACD both fire BUY (strengths 4 and
100) while Bollinger is silent. -/
def multiRows : List Row :=
  [dummyRow, dummyRow, dummyRow, dummyRow, dummyRow, dummyRow, dummyRow, dummyRow,
   dummyRow, dummyRow, dummyRow, dummyRow, dummyRow, dummyRow, dummyRow, dummyRow,
   dummyRow, dummyRow, dummyRow, dummyRow, dummyRow, dummyRow, dummyRow, dummyRow,
   multiPrevRow, multiCurRow]

/-- The signal the RSI strategy emits on `rsiRows14`. -/
def rsiWitnessSignal : Signal := { action := .BUY, price := 100, strength := 4 }

/-- The signal the Bollinger strategy emits on `bbRows`: its strength is
negative. -/
def bbWitnessSignal : Signal := { action := .BUY, price := 105, strength := -50 }

/-- The combined signal the multi-indicator strategy emits on `multiRows`:
strength `(4 + 100)/2 = 52`. -/
def multiWitnessSignal : Signal := { action := .BUY, price := 100, strength := 52 }

/-- The risk metrics of `flatCurve` (all ratios hit their zero-denominator
sentinel). -/
def flatRiskMetrics : RiskMetrics :=
  { sharpeRatio := 0, sortinoRatio := 0, calmarRatio := 0 }

/-- The benchmark metrics of `flatCurve` against itself (beta hits its
zero-variance sentinel; alpha is `0 - (2 + 0·(0-2)) = -2`). -/
def flatBenchMetrics : BenchmarkMetrics :=
  { buyHoldReturn := 0, alpha := -2, beta := 0 }

/-- An open BTC/USDT position whose risk to stop (1000 × 10 = 10000)
exceeds the 6% portfolio-risk budget of the default 10000 account. -/
def heavyPosition : Position :=
  { symbol := "BTC/USDT", side := .BUY, entryPrice := 1000, stopLoss := 0, quantity := 10 }

/-- An open BTC/USDT position with a small risk to stop (5), well inside
the portfolio-risk budget. -/
def lightPosition : Position :=
  { symbol := "BTC/USDT", side := .BUY, entryPrice := 100, stopLoss := 95, quantity := 1 }

/-- A trivial model of `pow` (only its guard behaviour matters to the
metrics theorems). -/
def constPow : ℚ → ℚ → ℚ := fun a _ => a

/-- A flat three-point equity curve: zero returns, zero volatility, zero
drawdown. -/
def flatCurve : List ℚ := [100, 100, 100]

/-- One completed winning trade (entry 100, exit 110, quantity 1): positive
gross profit, zero gross loss. -/
def winningTrade : TradeRecord :=
  { entryPrice := 100, exitPrice := some 110, quantity := 1, side := .BUY }

/-- The option-valued results of the seven embedded signal generators on
one input series. -/
def allStrategyResults (p : StrategyParams) (rows : List Row) : List (Option Signal) :=
  [rsiStrategy p rows, macdStrategy p rows, bollingerStrategy p rows,
   multiIndicatorStrategy p rows, smaCrossoverStrategy rows, emaStrategy rows,
   stochasticStrategy rows]

/-! ### Supporting lemmas -/

/-- The mean of a nonempty list is bounded by any bound on its elements. -/
lemma mean_le_of_le (l : List ℚ) (c : ℚ) (hne : l ≠ []) (h : ∀ x ∈ l, x ≤ c) :
    mean l ≤ c := by
  unfold mean
  rcases l with _ | ⟨a, l⟩
  · simp at hne
  have hlen : (0:ℚ) < ((a :: l).length : ℚ) := by exact_mod_cast Nat.succ_pos l.length
  rw [div_le_iff₀ hlen]
  have hsum := List.sum_le_card_nsmul (a :: l) c h
  rw [nsmul_eq_mul] at hsum
  linarith

/-- Both trend-adjusted multipliers are positive. -/
lemma trendMultipliers_pos (t : ℚ) :
    0 < (trendMultipliers t).1 ∧ 0 < (trendMultipliers t).2 := by
  unfold trendMultipliers
  split_ifs <;> exact ⟨by norm_num, by norm_num⟩

/-- The volatility adjustment preserves positivity of both multipliers. -/
lemma volatilityAdjusted_pos (v : ℚ) (m : ℚ × ℚ) (h1 : 0 < m.1) (h2 : 0 < m.2) :
    0 < (volatilityAdjusted v m).1 ∧ 0 < (volatilityAdjusted v m).2 := by
  unfold volatilityAdjusted
  split_ifs <;>
    first
      | exact ⟨mul_pos h1 (by norm_num), mul_pos h2 (by norm_num)⟩
      | exact ⟨h1, h2⟩

/-- Any RSI signal's strength lies in `[0, 100]`. -/
lemma rsiStrategy_strength_bounds (p : StrategyParams) (rows : List Row) (s : Signal)
    (h : rsiStrategy p rows = some s) : 0 ≤ s.strength ∧ s.strength ≤ 100 := by
  unfold rsiStrategy at h
  split at h
  · simp at h
  · split at h
    · simp at h
    · split at h
      case _ previous latest _ currentRsi previousRsi heq1 heq2 =>
        split_ifs at h with hbuy hsell
        · obtain rfl := Option.some_inj.mp h.symm
          exact ⟨le_min (by norm_num) (by linarith [hbuy.1]), min_le_left _ _⟩
        · obtain rfl := Option.some_inj.mp h.symm
          exact ⟨le_min (by norm_num) (by linarith [hsell.1]), min_le_left _ _⟩
      case _ => simp at h

/-- Any MACD signal's strength lies in `[0, 100]`. -/
lemma macdStrategy_strength_bounds (p : StrategyParams) (rows : List Row) (s : Signal)
    (h : macdStrategy p rows = some s) : 0 ≤ s.strength ∧ s.strength ≤ 100 := by
  unfold macdStrategy at h
  split at h
  · simp at h
  · split at h
    · simp at h
    · split at h
      case _ previous latest _ cm cs heq1 heq2 =>
        split at h
        case _ pm ps heq3 heq4 =>
          split_ifs at h with hbuy hsell
          · obtain rfl := Option.some_inj.mp h.symm
            exact ⟨le_min (by norm_num) (by positivity), min_le_left _ _⟩
          · obtain rfl := Option.some_inj.mp h.symm
            exact ⟨le_min (by norm_num) (by positivity), min_le_left _ _⟩
        case _ => simp at h
      case _ => simp at h

/-- Any Bollinger signal's strength is at most 100 (it is `min 100 _`). -/
lemma bollingerStrategy_strength_le (p : StrategyParams) (rows : List Row) (s : Signal)
    (h : bollingerStrategy p rows = some s) : s.strength ≤ 100 := by
  unfold bollingerStrategy at h
  split at h
  · simp at h
  · split at h
    · simp at h
    · split at h
      case _ previous latest _ u lo mid h1 h2 h3 =>
        split_ifs at h with hbuy hsell <;>
          · obtain rfl := Option.some_inj.mp h.symm
            exact min_le_left _ _
      case _ => simp at h

/-- Any SMA-crossover signal's strength is at most 100. -/
lemma smaCrossover_strength_le (rows : List Row) (s : Signal)
    (h : smaCrossoverStrategy rows = some s) : s.strength ≤ 100 := by
  unfold smaCrossoverStrategy at h
  split at h
  · simp at h
  · dsimp only [] at h
    split at h
    case _ latest cs cl ps pl h1 h2 h3 h4 h5 =>
      split_ifs at h with hbuy hsell <;>
        · obtain rfl := Option.some_inj.mp h.symm
          exact min_le_left _ _
    case _ => simp at h

/-- Any EMA signal's strength is at most 100. -/
lemma emaStrategy_strength_le (rows : List Row) (s : Signal)
    (h : emaStrategy rows = some s) : s.strength ≤ 100 := by
  unfold emaStrategy at h
  split at h
  · simp at h
  · dsimp only [] at h
    split at h
    case _ latest ef es h1 h2 h3 =>
      split_ifs at h with hbuy hsell <;>
        · obtain rfl := Option.some_inj.mp h.symm
          exact min_le_left _ _
    case _ => simp at h

/-- Any stochastic signal's strength lies in `[0, 100]`. -/
lemma stochasticStrategy_strength_bounds (rows : List Row) (s : Signal)
    (h : stochasticStrategy rows = some s) : 0 ≤ s.strength ∧ s.strength ≤ 100 := by
  unfold stochasticStrategy at h
  split at h
  · simp at h
  · dsimp only [] at h
    split at h
    case _ x latest ck cd pk pd h1 h2 h3 h4 h5 =>
      split_ifs at h with hbuy hsell
      · obtain rfl := Option.some_inj.mp h.symm
        exact ⟨le_min (by norm_num) (by linarith [hbuy.2.2]), min_le_left _ _⟩
      · obtain rfl := Option.some_inj.mp h.symm
        exact ⟨le_min (by norm_num) (by linarith [hsell.2.2]), min_le_left _ _⟩
    case _ => simp at h

/-- Every sub-signal the multi-indicator strategy combines has strength at
most 100. -/
lemma subSignal_strength_le (p : StrategyParams) (rows : List Row) (t : Signal)
    (ht : t ∈ (subSignals p rows).filterMap id) : t.strength ≤ 100 := by
  simp only [subSignals, List.mem_filterMap, List.mem_cons, List.not_mem_nil, or_false,
    id_eq] at ht
  obtain ⟨o, ho, hot⟩ := ht
  rcases ho with rfl | rfl | rfl
  · exact (rsiStrategy_strength_bounds p rows t hot).2
  · exact (macdStrategy_strength_bounds p rows t hot).2
  · exact bollingerStrategy_strength_le p rows t hot

/-- A nonzero agreeing-signal count means the agreeing-strength list is
nonempty. -/
lemma agreeingStrengths_ne_nil (p : StrategyParams) (rows : List Row) (a : Action)
    (h : countAction p rows a ≠ 0) : agreeingStrengths p rows a ≠ [] := by
  intro hnil
  apply h
  unfold countAction
  unfold agreeingStrengths at hnil
  rw [List.map_eq_nil_iff] at hnil
  rw [List.countP_eq_zero]
  intro x hx
  have := List.filter_eq_nil_iff.mp hnil x hx
  simpa using this

/-- Every element of an agreeing-strength list is at most 100. -/
lemma agreeingStrengths_le (p : StrategyParams) (rows : List Row) (a : Action)
    (x : ℚ) (hx : x ∈ agreeingStrengths p rows a) : x ≤ 100 := by
  simp only [agreeingStrengths, List.mem_map, List.mem_filter] at hx
  obtain ⟨t, ⟨htmem, _⟩, rfl⟩ := hx
  exact subSignal_strength_le p rows t htmem

/-- Any multi-indicator signal's strength is at most 100 (the mean of
sub-strengths each at most 100, or the fallback 50). -/
lemma multiIndicator_strength_le (p : StrategyParams) (rows : List Row) (s : Signal)
    (h : multiIndicatorStrategy p rows = some s) : s.strength ≤ 100 := by
  unfold multiIndicatorStrategy at h
  split at h
  · simp at h
  · split at h
    · simp at h
    · case _ latest heq =>
        split_ifs at h with hbuy hsell
        · obtain rfl := Option.some_inj.mp h.symm
          show (if agreeingStrengths p rows .BUY = [] then (50:ℚ)
                else mean (agreeingStrengths p rows .BUY)) ≤ 100
          split_ifs with hnil
          · norm_num
          · exact mean_le_of_le _ _ hnil (fun x hx => agreeingStrengths_le p rows _ x hx)
        · obtain rfl := Option.some_inj.mp h.symm
          show (if agreeingStrengths p rows .SELL = [] then (50:ℚ)
                else mean (agreeingStrengths p rows .SELL)) ≤ 100
          split_ifs with hnil
          · norm_num
          · exact mean_le_of_le _ _ hnil (fun x hx => agreeingStrengths_le p rows _ x hx)

/-! ### Claims -/

/-- C1: on the spec scenario (balance 10000, price 5000, ATR 100, base risk
1%, no recent trades) the code returns 0.001, not the 0.2 the claim (and
the spec's own arithmetic) expects: `position_size = risk/stop = 0.5` is
already a unit quantity, but strategy.py:650 divides it by the price a
second time, and the 0.001 minimum-quantity floor then applies.  The
theorem evaluates the embedding at the claim's exact inputs. -/
theorem c1_position_size_scenario :
    calculatePositionSize id defaultSizingConfig [] 5000 100 (some 10000) = 0.001 ∧
    calculatePositionSize id defaultSizingConfig [] 5000 100 (some 10000) ≠ 0.2 := by
  constructor <;>
    norm_num [calculatePositionSize, adjustRiskBasedOnPerformance, getRecentWinRate,
      getAverageWin, getAverageLoss, calculateDynamicStopDistance, lastN, mean, popVar,
      defaultSizingConfig]

/-- C2 counterexample: with balance 100 and price 100000 the returned
quantity is the 0.001 floor and the notional `0.001 × 100000 = 100`
exceeds 10% of the balance (10), refuting the unconditional notional
cap. -/
theorem c2_notional_cap_counterexample :
    calculatePositionSize id defaultSizingConfig [] 100000 0 (some 100) = 0.001 ∧
    0.1 * 100 < calculatePositionSize id defaultSizingConfig [] 100000 0 (some 100) * 100000 := by
  constructor <;>
    norm_num [calculatePositionSize, adjustRiskBasedOnPerformance, getRecentWinRate,
      getAverageWin, getAverageLoss, calculateDynamicStopDistance, lastN, mean, popVar,
      defaultSizingConfig]

/-- C2 (amended): for every price > 0 and balance > 0 (any ATR, any base
risk, any recent-trade history, any sqrt model) the quantity is positive,
and the notional `quantity × price` is capped at 10% of balance whenever
the 0.001 minimum-quantity floor itself fits under that cap. -/
theorem c2_quantity_positive_notional_capped (rt : ℚ → ℚ) (cfg : SizingConfig)
    (recent : List TradeOutcome) (price atr balance : ℚ)
    (hp : 0 < price) (_hb : 0 < balance) :
    0 < calculatePositionSize rt cfg recent price atr (some balance) ∧
    (0.001 * price ≤ 0.1 * balance →
      calculatePositionSize rt cfg recent price atr (some balance) * price ≤ 0.1 * balance) := by
  simp only [calculatePositionSize, Option.getD_some]
  constructor
  · exact lt_of_lt_of_le (by norm_num) (le_max_left _ _)
  · intro hcap
    rw [max_mul_of_nonneg _ _ hp.le]
    apply max_le hcap
    refine le_trans (mul_le_mul_of_nonneg_right (min_le_right _ _) hp.le) ?_
    rw [div_mul_cancel₀ _ hp.ne']
    linarith

/-- C2 witness: the amended statement evaluated at the spec scenario
(price 5000, balance 10000). -/
theorem c2_quantity_positive_notional_capped_witness :
    0 < calculatePositionSize id defaultSizingConfig [] 5000 100 (some 10000) ∧
    ((0.001 : ℚ) * 5000 ≤ 0.1 * 10000 →
      calculatePositionSize id defaultSizingConfig [] 5000 100 (some 10000) * 5000 ≤
        0.1 * 10000) :=
  c2_quantity_positive_notional_capped id defaultSizingConfig [] 5000 100 10000
    (by norm_num) (by norm_num)

/-- C3 counterexample: on `bbRows` the Bollinger strategy emits a BUY
signal with strength `-50 < 0` (price rebounds from below the lower band
to above the middle band), refuting `0 ≤ strength` for every generator. -/
theorem c3_bollinger_negative_strength_counterexample :
    bollingerStrategy defaultParams bbRows = some bbWitnessSignal ∧
    bbWitnessSignal.strength < 0 := by
  constructor
  · norm_num [bollingerStrategy, bbRows, lastTwo, bbPrevRow, bbCurRow, dummyRow,
      defaultParams, bbWitnessSignal]
  · norm_num [bbWitnessSignal]

/-- C3 (amended): every signal emitted by any of the seven embedded
generators has strength ≤ 100, and signals from the RSI, MACD, and
stochastic generators additionally have strength ≥ 0; the Bollinger
generator (and hence the multi-indicator combination) can emit negative
strengths. -/
theorem c3_signal_strength_bounds (p : StrategyParams) (rows : List Row) (s : Signal)
    (hmem : some s ∈ allStrategyResults p rows) :
    s.strength ≤ 100 ∧
    ((rsiStrategy p rows = some s ∨ macdStrategy p rows = some s ∨
      stochasticStrategy rows = some s) → 0 ≤ s.strength) := by
  constructor
  · simp only [allStrategyResults, List.mem_cons, List.not_mem_nil, or_false] at hmem
    rcases hmem with h | h | h | h | h | h | h
    · exact (rsiStrategy_strength_bounds p rows s h.symm).2
    · exact (macdStrategy_strength_bounds p rows s h.symm).2
    · exact bollingerStrategy_strength_le p rows s h.symm
    · exact multiIndicator_strength_le p rows s h.symm
    · exact smaCrossover_strength_le rows s h.symm
    · exact emaStrategy_strength_le rows s h.symm
    · exact (stochasticStrategy_strength_bounds rows s h.symm).2
  · rintro (h | h | h)
    · exact (rsiStrategy_strength_bounds p rows s h).1
    · exact (macdStrategy_strength_bounds p rows s h).1
    · exact (stochasticStrategy_strength_bounds rows s h).1

/-- C3 witness: the bounds evaluated on the RSI signal emitted on
`rsiRows14`. -/
theorem c3_signal_strength_bounds_witness :
    rsiWitnessSignal.strength ≤ 100 ∧ 0 ≤ rsiWitnessSignal.strength := by
  have hr : rsiStrategy defaultParams rsiRows14 = some rsiWitnessSignal := by
    norm_num [rsiStrategy, rsiRows14, lastTwo, rsiPrevRow, rsiCurRow, dummyRow,
      defaultParams, rsiWitnessSignal]
  have h := c3_signal_strength_bounds defaultParams rsiRows14 rsiWitnessSignal
    (by simp [allStrategyResults, hr])
  exact ⟨h.1, h.2 (Or.inl hr)⟩

/-- C4 counterexample: a warmed series whose RSI crosses 28 → 32 but whose
latest volume (0) is below the 1,000,000 threshold produces no signal, so
the RSI cross alone does not force a BUY. -/
theorem c4_low_volume_no_signal_counterexample :
    rsiLowVolRows.length = 14 ∧
    lastTwo rsiLowVolRows = some (rsiPrevRow, rsiLowVolRow) ∧
    rsiPrevRow.rsi = some 28 ∧ rsiLowVolRow.rsi = some 32 ∧
    rsiStrategy defaultParams rsiLowVolRows = none := by
  refine ⟨by simp [rsiLowVolRows], by simp [rsiLowVolRows, lastTwo], rfl, rfl, ?_⟩
  norm_num [rsiStrategy, rsiLowVolRows, lastTwo, rsiPrevRow, rsiLowVolRow, dummyRow,
    defaultParams]

/-- C4 (amended): on every warmed series (≥ 14 bars) whose last two RSI
values are 28 and 32 and whose latest volume exceeds the 1,000,000
threshold, the RSI strategy emits a BUY at the latest close with strength
`min 100 ((30-28)·2) = 4`. -/
theorem c4_rsi_cross_buy_signal (rows : List Row) (prev cur : Row)
    (h14 : 14 ≤ rows.length) (hlt : lastTwo rows = some (prev, cur))
    (hprev : prev.rsi = some 28) (hcur : cur.rsi = some 32)
    (hvol : cur.volume > 1000000) :
    rsiStrategy defaultParams rows =
      some { action := .BUY, price := cur.close, strength := 4 } := by
  have hlen : ¬ rows.length < 14 := by omega
  simp only [rsiStrategy, hlt, hprev, hcur, defaultParams]
  rw [if_neg hlen, if_pos ⟨by norm_num, by norm_num, hvol⟩]
  norm_num

/-- C4 witness: the amended statement evaluated on `rsiRows14`. -/
theorem c4_rsi_cross_buy_signal_witness :
    rsiStrategy defaultParams rsiRows14 =
      some { action := .BUY, price := rsiCurRow.close, strength := 4 } := by
  apply c4_rsi_cross_buy_signal rsiRows14 rsiPrevRow rsiCurRow
  · simp [rsiRows14]
  · simp [rsiRows14, lastTwo]
  · rfl
  · rfl
  · norm_num [rsiCurRow]

/-- C5: for every positive entry price (any ATR, any trend strength) the
adaptive stops straddle the entry in the direction of the side: BUY gives
`stop_loss < entry < take_profit`, SELL gives
`take_profit < entry < stop_loss`. -/
theorem c5_adaptive_stops_straddle (entryPrice atr trendStrength : ℚ) (side : Side)
    (he : 0 < entryPrice) :
    (side = .BUY → (setAdaptiveStops entryPrice atr trendStrength side).1 < entryPrice ∧
      entryPrice < (setAdaptiveStops entryPrice atr trendStrength side).2) ∧
    (side = .SELL → (setAdaptiveStops entryPrice atr trendStrength side).2 < entryPrice ∧
      entryPrice < (setAdaptiveStops entryPrice atr trendStrength side).1) := by
  have hm := volatilityAdjusted_pos
    ((if atr ≤ 0 then entryPrice * 0.02 else atr) / entryPrice)
    (trendMultipliers trendStrength)
    (trendMultipliers_pos trendStrength).1 (trendMultipliers_pos trendStrength).2
  set m := volatilityAdjusted ((if atr ≤ 0 then entryPrice * 0.02 else atr) / entryPrice)
    (trendMultipliers trendStrength) with hmdef
  obtain ⟨h1, h2⟩ := hm
  have hmin : 0 < entryPrice * 0.005 := by positivity
  have hratio : 0 < m.2 / m.1 := div_pos h2 h1
  cases side <;> simp only [setAdaptiveStops, ← hmdef] <;>
    constructor <;> intro hside <;> simp_all

/-- C5 witness: the straddle at entry 100, ATR 2, trend strength 0.5,
side BUY. -/
theorem c5_adaptive_stops_straddle_witness :
    (setAdaptiveStops 100 2 0.5 .BUY).1 < 100 ∧ 100 < (setAdaptiveStops 100 2 0.5 .BUY).2 :=
  (c5_adaptive_stops_straddle 100 2 0.5 .BUY (by norm_num)).1 rfl

/-- C6: whenever the multi-indicator strategy emits a signal, at least 2 of
its 3 sub-strategies (RSI, MACD, Bollinger) agree on that action and the
emitted strength is the mean of the agreeing strengths; consequently a
1-1 tie or a single agreeing sub-signal (count ≤ 1 in both directions)
emits nothing. -/
theorem c6_multi_indicator_agreement (p : StrategyParams) (rows : List Row) (s : Signal)
    (h : multiIndicatorStrategy p rows = some s) :
    (s.action = .BUY ∧ 2 ≤ countAction p rows .BUY ∧
      s.strength = mean (agreeingStrengths p rows .BUY)) ∨
    (s.action = .SELL ∧ 2 ≤ countAction p rows .SELL ∧
      s.strength = mean (agreeingStrengths p rows .SELL)) := by
  unfold multiIndicatorStrategy at h
  split at h
  · simp at h
  · split at h
    · simp at h
    · case _ latest heq =>
        split_ifs at h with hbuy hsell
        · obtain rfl := Option.some_inj.mp h.symm
          left
          refine ⟨rfl, hbuy, ?_⟩
          show (if agreeingStrengths p rows .BUY = [] then (50:ℚ)
                else mean (agreeingStrengths p rows .BUY)) = _
          rw [if_neg (agreeingStrengths_ne_nil p rows .BUY (by omega))]
        · obtain rfl := Option.some_inj.mp h.symm
          right
          refine ⟨rfl, hsell, ?_⟩
          show (if agreeingStrengths p rows .SELL = [] then (50:ℚ)
                else mean (agreeingStrengths p rows .SELL)) = _
          rw [if_neg (agreeingStrengths_ne_nil p rows .SELL (by omega))]

/-- C6 witness: on `multiRows` (RSI and MACD both BUY, Bollinger silent)
the emitted signal satisfies the agreement characterization. -/
theorem c6_multi_indicator_agreement_witness :
    (multiWitnessSignal.action = .BUY ∧ 2 ≤ countAction defaultParams multiRows .BUY ∧
      multiWitnessSignal.strength = mean (agreeingStrengths defaultParams multiRows .BUY)) ∨
    (multiWitnessSignal.action = .SELL ∧ 2 ≤ countAction defaultParams multiRows .SELL ∧
      multiWitnessSignal.strength = mean (agreeingStrengths defaultParams multiRows .SELL)) := by
  apply c6_multi_indicator_agreement defaultParams multiRows multiWitnessSignal
  norm_num [multiIndicatorStrategy, countAction, agreeingStrengths, subSignals,
    rsiStrategy, macdStrategy, bollingerStrategy, lastTwo, mean, defaultParams,
    multiRows, multiPrevRow, multiCurRow, dummyRow, List.filterMap_cons,
    List.countP_cons, List.filter_cons, multiWitnessSignal]
  simp

/-- C7: every series shorter than a generator's minimum window (14 for RSI
and stochastic, 20 for Bollinger, 26 for MACD, EMA and multi-indicator,
50 for the SMA crossover) yields no signal; the guards run before any bar
access, so the embedding is total (nothing can raise). -/
theorem c7_short_series_no_signal (rows : List Row) :
    (rows.length < 14 → rsiStrategy defaultParams rows = none ∧
      stochasticStrategy rows = none) ∧
    (rows.length < 20 → bollingerStrategy defaultParams rows = none) ∧
    (rows.length < 26 → macdStrategy defaultParams rows = none ∧
      emaStrategy rows = none ∧ multiIndicatorStrategy defaultParams rows = none) ∧
    (rows.length < 50 → smaCrossoverStrategy rows = none) := by
  refine ⟨fun h => ⟨?_, ?_⟩, fun h => ?_, fun h => ⟨?_, ?_, ?_⟩, fun h => ?_⟩ <;>
    simp [rsiStrategy, stochasticStrategy, bollingerStrategy, macdStrategy, emaStrategy,
      multiIndicatorStrategy, smaCrossoverStrategy, defaultParams, h]

/-- C7 witness: all seven generators yield no signal on the empty
series. -/
theorem c7_short_series_no_signal_witness :
    rsiStrategy defaultParams [] = none ∧ stochasticStrategy [] = none ∧
    bollingerStrategy defaultParams [] = none ∧ macdStrategy defaultParams [] = none ∧
    emaStrategy [] = none ∧ multiIndicatorStrategy defaultParams [] = none ∧
    smaCrossoverStrategy [] = none := by
  have h := c7_short_series_no_signal []
  exact ⟨(h.1 (by norm_num)).1, (h.1 (by norm_num)).2, h.2.1 (by norm_num),
    (h.2.2.1 (by norm_num)).1, (h.2.2.1 (by norm_num)).2.1, (h.2.2.1 (by norm_num)).2.2,
    h.2.2.2 (by norm_num)⟩

/-- C8: closing a BUY position entered at 100, exited at 110, quantity 10,
with a 0.1% commission charged on both the entry and the exit notional,
realizes `(110-100)·10 - (100·10·0.001 + 110·10·0.001) = 97.9`. -/
theorem c8_close_position_pnl : closePositionPnl .BUY 100 110 10 0.001 = 97.9 := by
  norm_num [closePositionPnl]

/-- C9: each zero-denominator ratio independently yields its defined
sentinel, for every equity curve, benchmark, trade list and every model
of sqrt/pow: whenever `calculate_risk_metrics` returns a dict, Sharpe is
0 if the annualized volatility is 0, Sortino is 0 if the downside
deviation is 0, and Calmar is 0 if the max drawdown is 0 — each
implication on its own, with no assumption on the other denominators;
whenever `calculate_benchmark_metrics` returns a dict, beta is 0 if the
benchmark variance is 0; and for any trade list with zero gross loss the
profit factor is the explicit 999.99 sentinel (the dict's encoding of
`inf`) when gross profit is positive and 0 otherwise.  The embedding is
total, so no case raises or yields NaN. -/
theorem c9_zero_denominator_sentinels (rt : ℚ → ℚ) (pw : ℚ → ℚ → ℚ)
    (portfolioValues benchmarkValues : List ℚ) (trades : List TradeRecord) :
    (∀ rm, calculateRiskMetrics rt pw portfolioValues = some rm →
      (volatilityAnn rt portfolioValues = 0 → rm.sharpeRatio = 0) ∧
      (downsideDeviation rt portfolioValues = 0 → rm.sortinoRatio = 0) ∧
      (maxDrawdown portfolioValues = 0 → rm.calmarRatio = 0)) ∧
    (∀ bm, calculateBenchmarkMetrics pw portfolioValues benchmarkValues = some bm →
      benchmarkVariance benchmarkValues = 0 → bm.beta = 0) ∧
    (grossLoss trades = 0 →
      (calculateTradeMetrics trades).profitFactor =
        (if 0 < grossProfit trades then 999.99 else 0)) := by
  refine ⟨?_, ?_, ?_⟩
  · intro rm hrm
    unfold calculateRiskMetrics at hrm
    split at hrm
    · simp at hrm
    dsimp only [] at hrm
    split at hrm
    · simp at hrm
    obtain rfl := Option.some_inj.mp hrm
    exact ⟨fun hvol => by simp [hvol], fun hdd => by simp [hdd], fun hmd => by simp [hmd]⟩
  · intro bm hbm hvar
    unfold calculateBenchmarkMetrics at hbm
    split at hbm
    · simp at hbm
    dsimp only [] at hbm
    split at hbm
    · simp at hbm
    obtain rfl := Option.some_inj.mp hbm
    simp [hvar]
  · intro hgl
    by_cases h5 : trades = []
    · subst h5
      simp [calculateTradeMetrics, zeroTradeMetrics, grossProfit]
    by_cases h6 : trades.filter (fun t => t.exitPrice ≠ none) = []
    · simp only [calculateTradeMetrics, if_neg h5, if_pos h6, zeroTradeMetrics]
      unfold grossProfit
      rw [h6]
      simp
    simp only [calculateTradeMetrics, if_neg h5, if_neg h6]
    unfold grossLoss at hgl
    rw [hgl]
    unfold grossProfit
    norm_num

/-- C9 witness: the sentinels on the flat curve `[100, 100, 100]` (zero
volatility, no downside returns, zero drawdown, zero benchmark variance)
and a single winning trade (zero gross loss, positive gross profit). -/
theorem c9_zero_denominator_sentinels_witness :
    flatRiskMetrics.sharpeRatio = 0 ∧ flatRiskMetrics.sortinoRatio = 0 ∧
    flatRiskMetrics.calmarRatio = 0 ∧ flatBenchMetrics.beta = 0 ∧
    (calculateTradeMetrics [winningTrade]).profitFactor =
      (if 0 < grossProfit [winningTrade] then 999.99 else 0) := by
  obtain ⟨h1, h2, h3⟩ :=
    c9_zero_denominator_sentinels id constPow flatCurve flatCurve [winningTrade]
  have hr := h1 flatRiskMetrics
    (by norm_num [calculateRiskMetrics, annualizedReturn, volatilityAnn, downsideDeviation,
      pctChange, sampleVar, mean, maxDrawdown, runningMax, runningMax.go, riskFreeRate,
      constPow, flatCurve, flatRiskMetrics])
  refine ⟨hr.1 (by norm_num [volatilityAnn, sampleVar, pctChange, mean, flatCurve]),
    hr.2.1 (by norm_num [downsideDeviation, sampleVar, pctChange, mean, flatCurve]),
    hr.2.2 (by norm_num [maxDrawdown, runningMax, runningMax.go, flatCurve]),
    h2 flatBenchMetrics
      (by norm_num [calculateBenchmarkMetrics, benchmarkVariance, sampleCov,
        annualizedReturn, pctChange, popVar, mean, riskFreeRate, constPow, flatCurve,
        flatBenchMetrics])
      (by norm_num [benchmarkVariance, popVar, pctChange, mean, flatCurve]),
    h3 ?_⟩
  simp [grossLoss, tradePnl, winningTrade, List.filter_cons]
  norm_num

/-- C10 counterexample: a same-symbol open position whose risk to stop
(10000) blows the 6% portfolio-heat budget makes `validate_trade` return
the portfolio-risk rejection, not the correlation rejection, refuting the
unconditional claim. -/
theorem c10_heat_precedes_correlation_counterexample :
    heavyPosition.symbol = "BTC/USDT" ∧
    validateTrade defaultRiskConfig [heavyPosition] "BTC/USDT" .BUY 1 100 90 130 =
      (false, "Portfolio risk limit exceeded") ∧
    validateTrade defaultRiskConfig [heavyPosition] "BTC/USDT" .BUY 1 100 90 130 ≠
      (false, "High correlation with existing positions") := by
  refine ⟨rfl, ?_, ?_⟩
  · norm_num [validateTrade, checkPortfolioHeat, positionRisk, heavyPosition,
      defaultRiskConfig]
  · norm_num [validateTrade, checkPortfolioHeat, positionRisk, heavyPosition,
      defaultRiskConfig]
    simp

/-- C10 (amended): whenever the portfolio-heat check passes, a proposed
trade on a symbol equal to some open position's symbol is rejected with
"High correlation with existing positions": the self-correlation 1.0
exceeds the default 0.7 threshold. -/
theorem c10_same_symbol_rejected (positions : List Position) (symbol : String)
    (side : Side) (quantity price stopLoss takeProfit : ℚ)
    (hheat : checkPortfolioHeat defaultRiskConfig positions
      ((if side = .BUY then price - stopLoss else stopLoss - price) * quantity) = true)
    (q : Position) (hq : q ∈ positions) (hsym : q.symbol = symbol) :
    validateTrade defaultRiskConfig positions symbol side quantity price stopLoss takeProfit =
      (false, "High correlation with existing positions") := by
  have hcorr : checkPositionCorrelation defaultRiskConfig symbol positions = false := by
    unfold checkPositionCorrelation
    rw [List.all_eq_false]
    refine ⟨q, hq, ?_⟩
    simp [hsym, calculatePositionCorrelation, defaultRiskConfig]
    norm_num
  unfold validateTrade
  rw [if_neg (not_not_intro hheat), if_pos (by simp [hcorr])]

/-- C10 witness: a small same-symbol position (risk 5, heat passes) makes
the trade rejected with the correlation message. -/
theorem c10_same_symbol_rejected_witness :
    validateTrade defaultRiskConfig [lightPosition] "BTC/USDT" .BUY 1 100 90 130 =
      (false, "High correlation with existing positions") := by
  apply c10_same_symbol_rejected [lightPosition] "BTC/USDT" .BUY 1 100 90 130
    (by norm_num [checkPortfolioHeat, positionRisk, lightPosition, defaultRiskConfig])
    lightPosition (by simp) rfl

end AlgoTradeHub
